import Mathlib

/-!
# Floating-point trap smoke tests: `test-fp-traps.c` and `test-fp-traps-direct.c`

Both programs install a `SIGFPE` handler, enable the overflow, divide-by-zero and
invalid-operation traps, arm a `sigsetjmp` checkpoint and multiply `1e308` by itself.
The portable program enables the traps with `feenableexcept`; the direct program
reads the AArch64 FPCR, ORs in bits 8, 9 and 10, writes it back and re-reads it.

The process is embedded as a record (`Proc`) that is passed through the statements of
`main`; everything the hardware and the operating system decide is held in a
`Platform` record: the values of the `<fenv.h>` masks, the initial FPCR content, the
effect of an `msr fpcr` write, the effect of `feenableexcept`, whether the overflowing
multiplication raises `SIGFPE`, and the `%g` rendering of the product when no signal
is raised.
-/

namespace FpTraps

/-! ## FPCR bit definitions (`test-fp-traps-direct.c`, lines 26-32) -/

/-- Invalid Operation Enable: `#define FPCR_IOE (1 << 8)`. -/
def FPCR_IOE : Nat := 1 <<< 8

/-- Divide by Zero Enable: `#define FPCR_DZE (1 << 9)`. -/
def FPCR_DZE : Nat := 1 <<< 9

/-- Overflow Enable: `#define FPCR_OFE (1 << 10)`. -/
def FPCR_OFE : Nat := 1 <<< 10

/-- Underflow Enable: `#define FPCR_UFE (1 << 11)`. -/
def FPCR_UFE : Nat := 1 <<< 11

/-- Inexact Enable: `#define FPCR_IXE (1 << 12)`. -/
def FPCR_IXE : Nat := 1 <<< 12

/-- Input Denormal Enable: `#define FPCR_IDE (1 << 15)`. -/
def FPCR_IDE : Nat := 1 <<< 15

/-- Number of values of a `uint64_t`. -/
def UINT64_SIZE : Nat := 2 ^ 64

/-! ## The process and its platform -/

/-- The two programs of the repository. -/
inductive Program where
  | portable
  | direct
  deriving DecidableEq, Repr

/-- Control points of one program run. -/
inductive Phase where
  | Init
  | TrapsEnabled
  | ArmedForFault
  | FaultCaught
  | FaultNotCaught
  deriving DecidableEq, Repr

/-- Disposition of `SIGFPE`: the default action, or `sigfpe_handler` installed with
`SA_SIGINFO`. -/
inductive Disposition where
  | SIG_DFL
  | siginfo_handler
  deriving DecidableEq, Repr

/-- How a signal handler gives up control: by returning, or by `siglongjmp` with a
value. -/
inductive Control where
  | returns
  | longjmp (val : Int)
  deriving DecidableEq, Repr

/-- What the hardware and the operating system decide during one run. -/
structure Platform where
  /-- value of the macro `FE_INVALID` of the system header `<fenv.h>` -/
  FE_INVALID : Nat
  /-- value of the macro `FE_DIVBYZERO` of the system header `<fenv.h>` -/
  FE_DIVBYZERO : Nat
  /-- value of the macro `FE_OVERFLOW` of the system header `<fenv.h>` -/
  FE_OVERFLOW : Nat
  /-- content of the FPCR when `main` starts -/
  fpcr_reset : Nat
  /-- content of the FPCR after `msr fpcr, v`, from the old content and `v` -/
  msr : Nat → Nat → Nat
  /-- content of the FPCR after `feenableexcept(excepts)`, from `excepts` and the old
  content -/
  feenableexcept : Nat → Nat → Nat
  /-- whether the overflowing multiplication raises `SIGFPE` -/
  sigfpe : Bool
  /-- the `%g` rendering of `result` when the multiplication completes -/
  result_g : String

/-- The process: the two `static` variables of the source, the FPCR, the `SIGFPE`
disposition, standard output (one entry per `printf` call), the exit status once
`main` has returned, and two counters that record how often the multiplication
statement and the body of `sigfpe_handler` were executed. -/
structure Proc where
  phase : Phase
  /-- The flag `static volatile int got_sigfpe`. -/
  got_sigfpe : Int
  /-- The buffer `static sigjmp_buf jump_buffer`: whether a checkpoint has been saved in it. -/
  jump_buffer : Bool
  fpcr : Nat
  sigfpe_action : Disposition
  stdout : List String
  exit_status : Option Int
  multiplications : Nat
  handler_runs : Nat
  deriving DecidableEq, Repr

/-- The process at the entry of `main`: `got_sigfpe` has its static initialiser `0`,
nothing has been printed, `SIGFPE` has its default disposition. -/
def Proc.start (env : Platform) : Proc :=
  { phase := Phase.Init
    got_sigfpe := 0
    jump_buffer := false
    fpcr := env.fpcr_reset
    sigfpe_action := Disposition.SIG_DFL
    stdout := []
    exit_status := none
    multiplications := 0
    handler_runs := 0 }

/-! ## Library and hardware primitives -/

/-- One lowercase hexadecimal digit. -/
def hex_digit (d : Nat) : Char :=
  if d < 10 then Char.ofNat (48 + d) else Char.ofNat (87 + d)

/-- The `w` least significant hexadecimal digits of `n`, most significant first. -/
def hex_digits : Nat → Nat → List Char
  | 0, _ => []
  | w + 1, n => hex_digits w (n / 16) ++ [hex_digit (n % 16)]

/-- The conversion `%016llx` of `printf` applied to `(unsigned long long)v`. -/
def fmt_016llx (v : Nat) : String :=
  String.mk (hex_digits 16 (v % UINT64_SIZE))

/-- One `printf` call: its formatted text is appended to standard output. -/
def printf (s : String) (p : Proc) : Proc :=
  { p with stdout := p.stdout ++ [s] }

/-- Lines 34-38 of the direct program, `mrs %0, fpcr`: the FPCR as a `uint64_t`. -/
def get_fpcr (p : Proc) : Nat :=
  p.fpcr % UINT64_SIZE

/-- Lines 40-42 of the direct program, `msr fpcr, %0`: the platform decides what the
register holds afterwards. -/
def set_fpcr (env : Platform) (fpcr : Nat) (p : Proc) : Proc :=
  { p with fpcr := env.msr p.fpcr fpcr }

/-- The call `sigaction(SIGFPE, &sa, NULL)` with `sa.sa_sigaction = sigfpe_handler`
and `sa.sa_flags = SA_SIGINFO`. -/
def sigaction (p : Proc) : Proc :=
  { p with sigfpe_action := Disposition.siginfo_handler }

/-- The direct call `sigsetjmp(jump_buffer, 1)`: saves the checkpoint; the call itself
yields `0`. -/
def sigsetjmp (p : Proc) : Proc × Int :=
  ({ p with jump_buffer := true }, 0)

/-- The value `sigsetjmp` yields when the checkpoint is resumed by
`siglongjmp(jump_buffer, val)`: `val`, or `1` when `val` is `0`. -/
def siglongjmp_value (val : Int) : Int :=
  if val = 0 then 1 else val

/-! ## The source functions -/

/-- The handler of both programs:
`got_sigfpe = 1; siglongjmp(jump_buffer, 1);`. -/
def sigfpe_handler (p : Proc) : Proc × Control :=
  ({ p with got_sigfpe := 1, handler_runs := p.handler_runs + 1 }, Control.longjmp 1)

/-- Line 60 of the direct program:
`fpcr_new = fpcr_before | FPCR_OFE | FPCR_DZE | FPCR_IOE`. -/
def fpcr_new (fpcr_before : Nat) : Nat :=
  fpcr_before ||| FPCR_OFE ||| FPCR_DZE ||| FPCR_IOE

/-- The condition of line 68 of the direct program:
`(fpcr_after & (FPCR_OFE | FPCR_DZE | FPCR_IOE)) != (FPCR_OFE | FPCR_DZE | FPCR_IOE)`. -/
def bits_did_not_stick (fpcr_after : Nat) : Bool :=
  (fpcr_after &&& (FPCR_OFE ||| FPCR_DZE ||| FPCR_IOE)) != (FPCR_OFE ||| FPCR_DZE ||| FPCR_IOE)

/-- The text selected by `(fpcr_after & BIT) ? "enabled" : "NOT enabled"`. -/
def enabled_text (fpcr_after bit : Nat) : String :=
  if fpcr_after &&& bit != 0 then "enabled" else "NOT enabled"

/-- Lines 68-75 of the direct program: the check that the trap bits stuck. -/
def check_trap_bits (fpcr_after : Nat) (p : Proc) : Proc :=
  if bits_did_not_stick fpcr_after then
    let p := printf "WARNING: FPCR trap bits did not stick!\n" p
    let p := printf ("  OFE: " ++ enabled_text fpcr_after FPCR_OFE ++ "\n") p
    let p := printf ("  DZE: " ++ enabled_text fpcr_after FPCR_DZE ++ "\n") p
    printf ("  IOE: " ++ enabled_text fpcr_after FPCR_IOE ++ "\n") p
  else
    printf "Trap bits successfully set.\n" p

/-- Lines 56-75 of the direct program: read the FPCR, OR in the three enable bits,
write it back, read it again and check. -/
def enable_traps_direct (env : Platform) (p : Proc) : Proc :=
  let fpcr_before := get_fpcr p
  let p := printf ("FPCR before: 0x" ++ fmt_016llx fpcr_before ++ "\n") p
  let fpcr_new := fpcr_new fpcr_before
  let p := printf ("Setting FPCR to: 0x" ++ fmt_016llx fpcr_new ++ "\n") p
  let p := set_fpcr env fpcr_new p
  let fpcr_after := get_fpcr p
  let p := printf ("FPCR after:  0x" ++ fmt_016llx fpcr_after ++ "\n") p
  check_trap_bits fpcr_after p

/-- Lines 34-35 of the portable program:
`feenableexcept(FE_OVERFLOW | FE_DIVBYZERO | FE_INVALID)`, its result ignored. -/
def enable_traps_portable (env : Platform) (p : Proc) : Proc :=
  let p := printf "Enabling FP traps...\n" p
  { p with
    fpcr := env.feenableexcept (env.FE_OVERFLOW ||| env.FE_DIVBYZERO ||| env.FE_INVALID) p.fpcr }

/-- The announcement printed before the checkpoint is armed (line 77 of the direct
program, line 37 of the portable one). -/
def testing_text : Program → String
  | Program.portable => "Testing overflow...\n"
  | Program.direct => "\nTesting overflow (1e308 * 1e308)...\n"

/-- The `SUCCESS` message of both programs. -/
def SUCCESS_TEXT : String := "SUCCESS: Caught SIGFPE for overflow\n"

/-- The beginning of the `FAIL` message of both programs. -/
def FAIL_HEAD : String := "FAIL: No SIGFPE caught"

/-- The `FAIL` message: `"FAIL: No SIGFPE caught (result=%g)\n"`. -/
def fail_text (env : Platform) : String :=
  FAIL_HEAD ++ (" (result=" ++ env.result_g ++ ")\n")

/-- The statement `return status;` of `main`. -/
def return_from_main (status : Int) (phase : Phase) (p : Proc) : Proc :=
  { p with exit_status := some status, phase := phase }

/-- The branch `if (sigsetjmp(jump_buffer, 1) == 0) ... else ...` once `sigsetjmp` has
yielded `ret`: on `0` the block with the multiplication is entered, otherwise the
`else` block prints `SUCCESS` and returns `0`. -/
def at_checkpoint (ret : Int) (p : Proc) : Proc :=
  if ret = 0 then
    { p with phase := Phase.ArmedForFault }
  else
    return_from_main 0 Phase.FaultCaught (printf SUCCESS_TEXT p)

/-- First part of `main`: install the handler and enable the traps. -/
def main_enable (prog : Program) (env : Platform) (p : Proc) : Proc :=
  let p := sigaction p
  let p :=
    match prog with
    | Program.portable => enable_traps_portable env p
    | Program.direct => enable_traps_direct env p
  { p with phase := Phase.TrapsEnabled }

/-- Second part of `main`: announce the test, clear `got_sigfpe`, arm the
checkpoint. -/
def main_arm (prog : Program) (p : Proc) : Proc :=
  let p := printf (testing_text prog) p
  let p := { p with got_sigfpe := 0 }
  let (p, ret) := sigsetjmp p
  at_checkpoint ret p

/-- Third part of `main`: `volatile double result = big * big;`. When the platform
raises `SIGFPE` the installed handler runs and control resumes at the checkpoint;
with the default disposition the process is killed, and a `siglongjmp` to a buffer
that holds no checkpoint is undefined (no successor in both cases). A handler that
returned would re-execute the faulting instruction. Without a signal the `FAIL`
message is printed and `main` returns `1`. -/
def main_fault (env : Platform) (p : Proc) : Option Proc :=
  let p := { p with multiplications := p.multiplications + 1 }
  if env.sigfpe then
    match p.sigfpe_action with
    | Disposition.SIG_DFL => none
    | Disposition.siginfo_handler =>
      match sigfpe_handler p with
      | (p, Control.returns) => some p
      | (p, Control.longjmp val) =>
        if p.jump_buffer then some (at_checkpoint (siglongjmp_value val) p) else none
  else
    some (return_from_main 1 Phase.FaultNotCaught (printf (fail_text env) p))

/-- One step of a program run; the two outcomes have no successor. -/
def step (prog : Program) (env : Platform) (p : Proc) : Option Proc :=
  match p.phase with
  | Phase.Init => some (main_enable prog env p)
  | Phase.TrapsEnabled => some (main_arm prog p)
  | Phase.ArmedForFault => main_fault env p
  | Phase.FaultCaught => none
  | Phase.FaultNotCaught => none

/-- The step relation of a program on a platform. -/
def Step (prog : Program) (env : Platform) (p q : Proc) : Prop :=
  step prog env p = some q

/-- The states visited from `p` in at most `fuel` steps, `p` first. -/
def trace (prog : Program) (env : Platform) : Nat → Proc → List Proc
  | 0, p => [p]
  | fuel + 1, p =>
    match step prog env p with
    | none => [p]
    | some q => p :: trace prog env fuel q

/-- The state reached from `p` after at most `fuel` steps. -/
def exec (prog : Program) (env : Platform) : Nat → Proc → Proc
  | 0, p => p
  | fuel + 1, p =>
    match step prog env p with
    | none => p
    | some q => exec prog env fuel q

/-- A program run: `main` from its entry to its `return`. Three steps reach an outcome,
and an outcome has no successor, so more fuel gives the same state (`exec_eq`). -/
def main (prog : Program) (env : Platform) : Proc :=
  exec prog env 3 (Proc.start env)

/-- The process when the checkpoint is armed and the multiplication is next. -/
def armed (prog : Program) (env : Platform) : Proc :=
  exec prog env 2 (Proc.start env)

/-! ## Values and texts of a run, for the statements below -/

/-- The local variable `fpcr_before` of the direct program: the first `get_fpcr()`. -/
def fpcr_before (env : Platform) : Nat :=
  get_fpcr (Proc.start env)

/-- The local variable `fpcr_after` of the direct program: `get_fpcr()` after
`set_fpcr(fpcr_new)`. -/
def fpcr_after (env : Platform) : Nat :=
  get_fpcr (set_fpcr env (fpcr_new (fpcr_before env)) (Proc.start env))

/-- Whether the text `s` begins with the text `pre`. -/
def starts_with (pre s : String) : Bool :=
  pre.data.isPrefixOf s.data

/-- Whether the text `s` ends with a newline, so that the next `printf` starts a line. -/
def ends_line (s : String) : Bool :=
  s.data.getLast? == some (Char.ofNat 10)

/-- A per-bit status line of the direct program. -/
def is_status_line (s : String) : Bool :=
  starts_with "  OFE: " s || starts_with "  DZE: " s || starts_with "  IOE: " s

/-- One of the two verdict messages: `SUCCESS`, or a text that begins with `FAIL_HEAD`. -/
def is_verdict (s : String) : Bool :=
  s == SUCCESS_TEXT || starts_with FAIL_HEAD s

/-- What the check of lines 68-75 prints for the re-read value `a`. -/
def check_lines (a : Nat) : List String :=
  if bits_did_not_stick a then
    ["WARNING: FPCR trap bits did not stick!\n",
     "  OFE: " ++ enabled_text a FPCR_OFE ++ "\n",
     "  DZE: " ++ enabled_text a FPCR_DZE ++ "\n",
     "  IOE: " ++ enabled_text a FPCR_IOE ++ "\n"]
  else
    ["Trap bits successfully set.\n"]

/-- What a program prints while it enables the traps. -/
def enable_lines : Program → Platform → List String
  | Program.portable, _ => ["Enabling FP traps...\n"]
  | Program.direct, env =>
    ["FPCR before: 0x" ++ fmt_016llx (fpcr_before env) ++ "\n",
     "Setting FPCR to: 0x" ++ fmt_016llx (fpcr_new (fpcr_before env)) ++ "\n",
     "FPCR after:  0x" ++ fmt_016llx (fpcr_after env) ++ "\n"] ++ check_lines (fpcr_after env)

/-- The FPCR content once a program has enabled the traps. -/
def enabled_fpcr : Program → Platform → Nat
  | Program.portable, env =>
    env.feenableexcept (env.FE_OVERFLOW ||| env.FE_DIVBYZERO ||| env.FE_INVALID) env.fpcr_reset
  | Program.direct, env => env.msr env.fpcr_reset (fpcr_new (fpcr_before env))

/-- The process after the first step, written out. -/
def enabled_state (prog : Program) (env : Platform) : Proc :=
  { phase := Phase.TrapsEnabled
    got_sigfpe := 0
    jump_buffer := false
    fpcr := enabled_fpcr prog env
    sigfpe_action := Disposition.siginfo_handler
    stdout := enable_lines prog env
    exit_status := none
    multiplications := 0
    handler_runs := 0 }

/-- The process after the second step, written out. -/
def armed_state (prog : Program) (env : Platform) : Proc :=
  { phase := Phase.ArmedForFault
    got_sigfpe := 0
    jump_buffer := true
    fpcr := enabled_fpcr prog env
    sigfpe_action := Disposition.siginfo_handler
    stdout := enable_lines prog env ++ [testing_text prog]
    exit_status := none
    multiplications := 0
    handler_runs := 0 }

/-- The process after the third step, written out. -/
def final_state (prog : Program) (env : Platform) : Proc :=
  { phase := if env.sigfpe then Phase.FaultCaught else Phase.FaultNotCaught
    got_sigfpe := if env.sigfpe then 1 else 0
    jump_buffer := true
    fpcr := enabled_fpcr prog env
    sigfpe_action := Disposition.siginfo_handler
    stdout := enable_lines prog env ++
      [testing_text prog, if env.sigfpe then SUCCESS_TEXT else fail_text env]
    exit_status := some (if env.sigfpe then 0 else 1)
    multiplications := 1
    handler_runs := if env.sigfpe then 1 else 0 }

/-! ## Platform properties named by the specification -/

/-- The platform honours the trap-enable request of the program: `feenableexcept`
leaves the three enable bits set (portable program); an `msr fpcr` write leaves set
each of the three enable bits that is set in the value written, whatever it does with
the other bits (direct program). -/
def honours_request : Program → Platform → Prop
  | Program.portable, env =>
    ∀ r b, b = 8 ∨ b = 9 ∨ b = 10 →
      (env.feenableexcept (env.FE_OVERFLOW ||| env.FE_DIVBYZERO ||| env.FE_INVALID) r).testBit b
        = true
  | Program.direct, env =>
    ∀ old v b, b = 8 ∨ b = 9 ∨ b = 10 → v.testBit b = true → (env.msr old v).testBit b = true

/-- Working precise traps: the request is honoured, and the overflowing
multiplication raises `SIGFPE` when the overflow trap (bit 10 of the FPCR) is enabled
at that point. -/
def working_traps (prog : Program) (env : Platform) : Prop :=
  honours_request prog env ∧ ((armed prog env).fpcr.testBit 10 = true → env.sigfpe = true)

/-- A platform with working traps: writes are stored, `feenableexcept` sets the
requested enable bits (the AArch64 masks, shifted by 8), `SIGFPE` is raised. -/
def faithful_platform (reset : Nat) : Platform :=
  { FE_INVALID := 1
    FE_DIVBYZERO := 2
    FE_OVERFLOW := 4
    fpcr_reset := reset
    msr := fun _ v => v
    feenableexcept := fun excepts r => r ||| (excepts <<< 8)
    sigfpe := true
    result_g := "inf" }

/-- A platform with working traps whose FPCR is a 64-bit register with reserved bits:
a write stores the value written modulo `2^64` with the bits outside `0x07C89F00`
cleared; `SIGFPE` is raised. -/
def register_platform (reset : Nat) : Platform :=
  { FE_INVALID := 1
    FE_DIVBYZERO := 2
    FE_OVERFLOW := 4
    fpcr_reset := reset
    msr := fun _ v => v % UINT64_SIZE &&& 0x07C89F00
    feenableexcept := fun excepts r => (r ||| (excepts <<< 8)) % UINT64_SIZE &&& 0x07C89F00
    sigfpe := true
    result_g := "inf" }

/-- A platform that ignores every attempt to change the FPCR; `raise` says whether
the multiplication raises `SIGFPE`. -/
def masking_platform (reset : Nat) (raise : Bool) : Platform :=
  { FE_INVALID := 1
    FE_DIVBYZERO := 2
    FE_OVERFLOW := 4
    fpcr_reset := reset
    msr := fun old _ => old
    feenableexcept := fun _ r => r
    sigfpe := raise
    result_g := "inf" }

/-! ## The operand `1e308` -/

/-- Number of significand bits of a `double`. -/
def DBL_MANT_DIG : Nat := 53

/-- Largest binary exponent of a `double`: every finite `double` is below
`2 ^ DBL_MAX_EXP`. -/
def DBL_MAX_EXP : Nat := 1024

/-- The largest finite `double`, `2^1024 - 2^971`. -/
def DBL_MAX : Nat := 2 ^ DBL_MAX_EXP - 2 ^ (DBL_MAX_EXP - DBL_MANT_DIG)

/-- Number of binary digits of `n` (with `fuel` at least that number). -/
def bit_length : Nat → Nat → Nat
  | 0, _ => 0
  | fuel + 1, n => if n = 0 then 0 else bit_length fuel (n / 2) + 1

/-- The `double` that a decimal constant with natural value `n` denotes, for `n` below
the overflow threshold: `n` rounded to `DBL_MANT_DIG` significant bits, to nearest,
ties to even. -/
def round_to_double (n : Nat) : Nat :=
  let e := bit_length n n - DBL_MANT_DIG
  let q := n / 2 ^ e
  let r := n % 2 ^ e
  let m := if 2 * r > 2 ^ e ∨ (2 * r = 2 ^ e ∧ q % 2 = 1) then q + 1 else q
  m * 2 ^ e

/-- The operand of the multiplication: `volatile double big = 1e308;`. -/
def big : Nat := round_to_double (10 ^ 308)

/-- The finite `double` values, as rationals: `± m * 2^e` with `m < 2^53` and
`-1074 ≤ e ≤ 971`. -/
def is_double (x : ℚ) : Prop :=
  ∃ (neg : Bool) (m : ℕ) (e : ℤ), m < 2 ^ DBL_MANT_DIG ∧ -1074 ≤ e ∧ e ≤ 971 ∧
    x = (if neg then -1 else 1) * ((m : ℚ) * (2 : ℚ) ^ e)

/-! ## Shared lemmas: the bits of the FPCR -/

theorem FPCR_IOE_eq : FPCR_IOE = 2 ^ 8 := by decide

theorem FPCR_DZE_eq : FPCR_DZE = 2 ^ 9 := by decide

theorem FPCR_OFE_eq : FPCR_OFE = 2 ^ 10 := by decide

theorem testBit_trap_mask (i : Nat) :
    (FPCR_OFE ||| FPCR_DZE ||| FPCR_IOE).testBit i =
      (decide (i = 8) || decide (i = 9) || decide (i = 10)) := by
  simp only [FPCR_IOE_eq, FPCR_DZE_eq, FPCR_OFE_eq, Nat.testBit_or, Nat.testBit_two_pow]
  by_cases h8 : i = 8 <;> by_cases h9 : i = 9 <;> by_cases h10 : i = 10 <;>
    simp [h8, h9, h10, eq_comm]

theorem testBit_fpcr_new (b i : Nat) :
    (fpcr_new b).testBit i =
      (b.testBit i || (decide (i = 8) || decide (i = 9) || decide (i = 10))) := by
  have h : fpcr_new b = b ||| (FPCR_OFE ||| FPCR_DZE ||| FPCR_IOE) := by
    simp [fpcr_new, Nat.lor_assoc]
  rw [h, Nat.testBit_or, testBit_trap_mask]

theorem trap_mask_eq : FPCR_OFE ||| FPCR_DZE ||| FPCR_IOE = 0x700 := by decide

theorem fpcr_new_eq_lor (b : Nat) : fpcr_new b = b ||| 0x700 := by
  simp [fpcr_new, Nat.lor_assoc, ← trap_mask_eq]

theorem fpcr_new_lt (b : Nat) (h : b < UINT64_SIZE) : fpcr_new b < UINT64_SIZE := by
  rw [fpcr_new_eq_lor]
  exact Nat.or_lt_two_pow h (by decide)

theorem land_trap_mask_eq_iff (a : Nat) :
    a &&& (FPCR_OFE ||| FPCR_DZE ||| FPCR_IOE) = (FPCR_OFE ||| FPCR_DZE ||| FPCR_IOE) ↔
      (a.testBit 8 = true ∧ a.testBit 9 = true ∧ a.testBit 10 = true) := by
  constructor
  · intro h
    have h8 := congrArg (fun x => x.testBit 8) h
    have h9 := congrArg (fun x => x.testBit 9) h
    have h10 := congrArg (fun x => x.testBit 10) h
    simp only [Nat.testBit_and, testBit_trap_mask] at h8 h9 h10
    simpa using And.intro h8 (And.intro h9 h10)
  · rintro ⟨h8, h9, h10⟩
    apply Nat.eq_of_testBit_eq
    intro i
    rw [Nat.testBit_and, testBit_trap_mask]
    by_cases e8 : i = 8
    · subst e8; simp [h8]
    · by_cases e9 : i = 9
      · subst e9; simp [h9]
      · by_cases e10 : i = 10
        · subst e10; simp [h10]
        · simp [e8, e9, e10]

theorem bits_did_not_stick_eq (a : Nat) :
    bits_did_not_stick a = !(a.testBit 8 && a.testBit 9 && a.testBit 10) := by
  unfold bits_did_not_stick
  by_cases h : a &&& (FPCR_OFE ||| FPCR_DZE ||| FPCR_IOE) = (FPCR_OFE ||| FPCR_DZE ||| FPCR_IOE)
  · have h2 := (land_trap_mask_eq_iff a).1 h
    simp [h, h2.1, h2.2.1, h2.2.2]
  · have h2 := mt (land_trap_mask_eq_iff a).2 h
    have h3 : (a &&& (FPCR_OFE ||| FPCR_DZE ||| FPCR_IOE) !=
        (FPCR_OFE ||| FPCR_DZE ||| FPCR_IOE)) = true := by
      simpa [bne_iff_ne] using h
    rw [h3]
    cases h8 : a.testBit 8 <;> cases h9 : a.testBit 9 <;> cases h10 : a.testBit 10 <;> simp_all

theorem land_two_pow_ne_zero (a k : Nat) : ((a &&& 2 ^ k) != 0) = a.testBit k := by
  rw [Nat.and_two_pow]
  cases a.testBit k <;> simp

theorem enabled_text_OFE (a : Nat) :
    enabled_text a FPCR_OFE = if a.testBit 10 then "enabled" else "NOT enabled" := by
  unfold enabled_text
  rw [FPCR_OFE_eq, land_two_pow_ne_zero]

theorem enabled_text_DZE (a : Nat) :
    enabled_text a FPCR_DZE = if a.testBit 9 then "enabled" else "NOT enabled" := by
  unfold enabled_text
  rw [FPCR_DZE_eq, land_two_pow_ne_zero]

theorem enabled_text_IOE (a : Nat) :
    enabled_text a FPCR_IOE = if a.testBit 8 then "enabled" else "NOT enabled" := by
  unfold enabled_text
  rw [FPCR_IOE_eq, land_two_pow_ne_zero]

/-! ## Shared lemmas: the steps of a run -/

theorem check_trap_bits_eq (a : Nat) (p : Proc) :
    check_trap_bits a p = { p with stdout := p.stdout ++ check_lines a } := by
  unfold check_trap_bits check_lines
  split <;> simp [printf]

theorem step_start (prog : Program) (env : Platform) :
    step prog env (Proc.start env) = some (enabled_state prog env) := by
  cases prog
  · simp [step, main_enable, enable_traps_portable, printf, sigaction, Proc.start,
      enable_lines, enabled_fpcr, enabled_state]
  · simp [step, main_enable, enable_traps_direct, check_trap_bits_eq, printf, sigaction,
      Proc.start, enable_lines, enabled_fpcr, get_fpcr, set_fpcr, fpcr_after, fpcr_before,
      enabled_state]

theorem step_enabled (prog : Program) (env : Platform) :
    step prog env (enabled_state prog env) = some (armed_state prog env) := by
  simp [step, enabled_state, armed_state, main_arm, sigsetjmp, at_checkpoint, printf]

theorem step_armed (prog : Program) (env : Platform) :
    step prog env (armed_state prog env) = some (final_state prog env) := by
  cases h : env.sigfpe <;>
    simp [step, armed_state, final_state, main_fault, h, at_checkpoint, printf,
      sigfpe_handler, siglongjmp_value, return_from_main]

theorem step_final (prog : Program) (env : Platform) :
    step prog env (final_state prog env) = none := by
  cases h : env.sigfpe <;> simp [step, final_state, h]

theorem main_eq (prog : Program) (env : Platform) : main prog env = final_state prog env := by
  simp [main, exec, step_start, step_enabled, step_armed]

theorem armed_eq (prog : Program) (env : Platform) : armed prog env = armed_state prog env := by
  simp [armed, exec, step_start, step_enabled]

theorem trace_eq (prog : Program) (env : Platform) (n : Nat) :
    trace prog env (n + 3) (Proc.start env) =
      [Proc.start env, enabled_state prog env, armed_state prog env, final_state prog env] := by
  cases n <;> simp [trace, step_start, step_enabled, step_armed, step_final]

theorem exec_eq (prog : Program) (env : Platform) (n : Nat) :
    exec prog env (n + 3) (Proc.start env) = final_state prog env := by
  cases n <;> simp [exec, step_start, step_enabled, step_armed, step_final]

/-! ## Shared lemmas: what is printed -/

theorem check_lines_cases (a : Nat) :
    check_lines a =
      if a.testBit 8 = true ∧ a.testBit 9 = true ∧ a.testBit 10 = true then
        ["Trap bits successfully set.\n"]
      else
        ["WARNING: FPCR trap bits did not stick!\n",
         if a.testBit 10 then "  OFE: enabled\n" else "  OFE: NOT enabled\n",
         if a.testBit 9 then "  DZE: enabled\n" else "  DZE: NOT enabled\n",
         if a.testBit 8 then "  IOE: enabled\n" else "  IOE: NOT enabled\n"] := by
  unfold check_lines
  rw [bits_did_not_stick_eq, enabled_text_OFE, enabled_text_DZE, enabled_text_IOE]
  cases a.testBit 8 <;> cases a.testBit 9 <;> cases a.testBit 10 <;> decide

theorem main_stdout (prog : Program) (env : Platform) :
    (main prog env).stdout = enable_lines prog env ++
      [testing_text prog, if env.sigfpe then SUCCESS_TEXT else fail_text env] := by
  simp [main_eq, final_state]

theorem direct_stdout (env : Platform) :
    (main Program.direct env).stdout =
      ["FPCR before: 0x" ++ fmt_016llx (fpcr_before env) ++ "\n",
       "Setting FPCR to: 0x" ++ fmt_016llx (fpcr_new (fpcr_before env)) ++ "\n",
       "FPCR after:  0x" ++ fmt_016llx (fpcr_after env) ++ "\n"] ++
      check_lines (fpcr_after env) ++
      ["\nTesting overflow (1e308 * 1e308)...\n",
       if env.sigfpe then SUCCESS_TEXT else fail_text env] := by
  simp [main_eq, final_state, enable_lines, testing_text]

theorem count_direct_stdout (env : Platform) (x : String)
    (hF : x.data.head? ≠ some 'F') (hS : x.data.head? ≠ some 'S')
    (hn : x.data.head? ≠ some '\n') :
    (main Program.direct env).stdout.count x = (check_lines (fpcr_after env)).count x := by
  have h1 : ("FPCR before: 0x" ++ fmt_016llx (fpcr_before env) ++ "\n" == x) = false := by
    rw [beq_eq_false_iff_ne]
    intro h; apply hF; rw [← h]; simp [String.data_append]
  have h2 : ("Setting FPCR to: 0x" ++ fmt_016llx (fpcr_new (fpcr_before env)) ++ "\n" == x)
      = false := by
    rw [beq_eq_false_iff_ne]
    intro h; apply hS; rw [← h]; simp [String.data_append]
  have h3 : ("FPCR after:  0x" ++ fmt_016llx (fpcr_after env) ++ "\n" == x) = false := by
    rw [beq_eq_false_iff_ne]
    intro h; apply hF; rw [← h]; simp [String.data_append]
  have h4 : ("\nTesting overflow (1e308 * 1e308)...\n" == x) = false := by
    rw [beq_eq_false_iff_ne]
    intro h; apply hn; rw [← h]; simp
  have h5 : ((if env.sigfpe then SUCCESS_TEXT else fail_text env) == x) = false := by
    rw [beq_eq_false_iff_ne]
    intro h
    cases hs : env.sigfpe
    · apply hF; rw [← h, hs]; simp [fail_text, FAIL_HEAD, String.data_append]
    · apply hS; rw [← h, hs]; simp [SUCCESS_TEXT]
  rw [direct_stdout]
  simp [List.count_cons, h1, h2, h3, h4, h5]

theorem mem_direct_stdout (env : Platform) (x : String)
    (hF : x.data.head? ≠ some 'F') (hS : x.data.head? ≠ some 'S')
    (hn : x.data.head? ≠ some '\n') :
    x ∈ (main Program.direct env).stdout ↔ x ∈ check_lines (fpcr_after env) := by
  rw [← List.count_pos_iff, ← List.count_pos_iff, count_direct_stdout env x hF hS hn]

theorem is_verdict_check_lines (a : Nat) : ∀ l ∈ check_lines a, is_verdict l = false := by
  rw [check_lines_cases]
  cases a.testBit 8 <;> cases a.testBit 9 <;> cases a.testBit 10 <;> decide

theorem is_verdict_fpcr_lines (x : String) :
    is_verdict ("FPCR before: 0x" ++ x ++ "\n") = false ∧
    is_verdict ("Setting FPCR to: 0x" ++ x ++ "\n") = false ∧
    is_verdict ("FPCR after:  0x" ++ x ++ "\n") = false := by
  simp [is_verdict, starts_with, SUCCESS_TEXT, FAIL_HEAD, String.ext_iff, String.data_append,
    List.isPrefixOf]

theorem is_verdict_enable_lines (prog : Program) (env : Platform) :
    ∀ l ∈ enable_lines prog env, is_verdict l = false := by
  cases prog
  · simp [enable_lines, is_verdict, starts_with, SUCCESS_TEXT, FAIL_HEAD, List.isPrefixOf]
  · intro l hl
    simp only [enable_lines, List.mem_append, List.mem_cons, List.mem_singleton,
      List.not_mem_nil, or_false] at hl
    rcases hl with (rfl | rfl | rfl) | hl
    · exact (is_verdict_fpcr_lines _).1
    · exact (is_verdict_fpcr_lines _).2.1
    · exact (is_verdict_fpcr_lines _).2.2
    · exact is_verdict_check_lines _ l hl

theorem is_verdict_testing_text (prog : Program) : is_verdict (testing_text prog) = false := by
  cases prog <;> decide

theorem is_verdict_success : is_verdict SUCCESS_TEXT = true := by decide

theorem starts_with_fail_text (env : Platform) :
    starts_with FAIL_HEAD (fail_text env) = true := by
  simp [starts_with, fail_text, String.data_append, FAIL_HEAD]

theorem is_verdict_fail_text (env : Platform) : is_verdict (fail_text env) = true := by
  simp [is_verdict, starts_with_fail_text]

theorem fail_text_ne_success (env : Platform) : fail_text env ≠ SUCCESS_TEXT := by
  simp [fail_text, FAIL_HEAD, SUCCESS_TEXT, String.ext_iff, String.data_append]

theorem not_verdict_iff (l : String) (h : is_verdict l = false) :
    starts_with FAIL_HEAD l = false ∧ l ≠ SUCCESS_TEXT := by
  simp [is_verdict] at h
  exact ⟨h.2, h.1⟩

theorem countP_verdict (prog : Program) (env : Platform) :
    (main prog env).stdout.countP is_verdict = 1 := by
  have h0 : (enable_lines prog env).countP is_verdict = 0 := by
    rw [List.countP_eq_zero]
    intro l hl
    simp [is_verdict_enable_lines prog env l hl]
  rw [main_stdout, List.countP_append, h0]
  cases env.sigfpe <;>
    simp [List.countP_cons, is_verdict_testing_text, is_verdict_success, is_verdict_fail_text]

theorem ends_line_append_newline (x : String) : ends_line (x ++ "\n") = true := by
  simp [ends_line, String.data_append]

theorem ends_line_check_lines (a : Nat) : ∀ l ∈ check_lines a, ends_line l = true := by
  rw [check_lines_cases]
  cases a.testBit 8 <;> cases a.testBit 9 <;> cases a.testBit 10 <;> decide

theorem ends_line_stdout (prog : Program) (env : Platform) :
    ∀ l ∈ (main prog env).stdout, ends_line l = true := by
  have hfail : ends_line (fail_text env) = true := by
    have h : fail_text env = (FAIL_HEAD ++ " (result=" ++ env.result_g ++ ")") ++ "\n" := by
      simp [fail_text, String.ext_iff, String.data_append]
    rw [h]
    exact ends_line_append_newline _
  have hlast : ends_line (if env.sigfpe then SUCCESS_TEXT else fail_text env) = true := by
    cases env.sigfpe
    · simpa using hfail
    · simp only [if_true]
      decide
  intro l hl
  rw [main_stdout] at hl
  rcases List.mem_append.1 hl with h | h
  · cases prog
    · simp only [enable_lines, List.mem_singleton] at h
      rw [h]; decide
    · simp only [enable_lines, List.mem_append, List.mem_cons, List.mem_singleton,
        List.not_mem_nil, or_false] at h
      rcases h with (rfl | rfl | rfl) | h
      · exact ends_line_append_newline _
      · exact ends_line_append_newline _
      · exact ends_line_append_newline _
      · exact ends_line_check_lines _ l h
  · simp only [List.mem_cons, List.mem_singleton, List.not_mem_nil, or_false] at h
    rcases h with rfl | rfl
    · cases prog <;> decide
    · exact hlast

/-! ## Shared lemmas: the operand `1e308` -/

set_option maxRecDepth 100000 in
set_option exponentiation.threshold 2048 in
theorem big_eq : big = 5010420900022432 * 2 ^ 971 := by decide

set_option maxRecDepth 100000 in
set_option exponentiation.threshold 2048 in
theorem big_near : 10 ^ 308 ≤ big ∧ big ≤ 10 ^ 308 + 2 ^ 970 := by decide

set_option maxRecDepth 100000 in
set_option exponentiation.threshold 2048 in
theorem big_sq_overflows : DBL_MAX < big * big ∧ 2 ^ DBL_MAX_EXP ≤ big * big := by decide

set_option maxRecDepth 100000 in
set_option exponentiation.threshold 2048 in
theorem far_below : 2 ^ 1023 + 2 ^ 970 ≤ 10 ^ 308 := by decide

set_option exponentiation.threshold 2048 in
theorem big_cast : (big : ℚ) = 5010420900022432 * (2 * 2 ^ 970) := by
  rw [big_eq, pow_succ 2 970]
  push_cast
  ring

theorem is_status_line_of_head (s : String) (h : s.data.head? ≠ some ' ') :
    is_status_line s = false := by
  unfold is_status_line starts_with
  cases hs : s.data with
  | nil => simp [List.isPrefixOf]
  | cons c cs =>
    have hc : c ≠ ' ' := by
      intro e; apply h; rw [hs, e]; rfl
    have hc2 : (' ' == c) = false := by
      rw [beq_eq_false_iff_ne]; exact fun e => hc e.symm
    simp [List.isPrefixOf, hc2]

theorem filter_status_direct_stdout (env : Platform) :
    (main Program.direct env).stdout.filter is_status_line =
      (check_lines (fpcr_after env)).filter is_status_line := by
  have h1 : ∀ x : String, is_status_line ("FPCR before: 0x" ++ x ++ "\n") = false ∧
      is_status_line ("Setting FPCR to: 0x" ++ x ++ "\n") = false ∧
      is_status_line ("FPCR after:  0x" ++ x ++ "\n") = false := by
    intro x
    refine ⟨?_, ?_, ?_⟩ <;> apply is_status_line_of_head <;> simp [String.data_append]
  have h4 : is_status_line "\nTesting overflow (1e308 * 1e308)...\n" = false := by decide
  have h5 : is_status_line (if env.sigfpe then SUCCESS_TEXT else fail_text env) = false := by
    apply is_status_line_of_head
    cases env.sigfpe <;> simp [fail_text, FAIL_HEAD, SUCCESS_TEXT, String.data_append]
  rw [direct_stdout]
  simp [List.filter_cons, List.filter_append, (h1 _).1, (h1 _).2.1, (h1 _).2.2, h4, h5]

theorem fpcr_after_with (env : Platform) (s : Bool) (r : String) :
    fpcr_after { env with sigfpe := s, result_g := r } = fpcr_after env := rfl

/-! ## Shared lemmas: platforms with working traps -/

theorem faithful_platform_working (prog : Program) (reset : Nat) :
    working_traps prog (faithful_platform reset) := by
  refine ⟨?_, fun _ => rfl⟩
  cases prog
  · intro r b hb
    simp only [faithful_platform, Nat.testBit_or, Bool.or_eq_true]
    right
    rcases hb with rfl | rfl | rfl <;> decide
  · intro old v b _ hv
    exact hv

theorem testBit_reserved_mask (x b : Nat) (hb : b = 8 ∨ b = 9 ∨ b = 10) :
    (x % UINT64_SIZE &&& 0x07C89F00).testBit b = x.testBit b := by
  have hm : (0x07C89F00 : Nat).testBit b = true := by
    rcases hb with rfl | rfl | rfl <;> decide
  have hlt : b < 64 := by
    rcases hb with rfl | rfl | rfl <;> decide
  rw [Nat.testBit_and, hm, Bool.and_true, UINT64_SIZE, Nat.testBit_mod_two_pow]
  simp [hlt]

theorem register_platform_working (prog : Program) (reset : Nat) :
    working_traps prog (register_platform reset) := by
  refine ⟨?_, fun _ => rfl⟩
  cases prog
  · intro r b hb
    show ((r ||| ((4 ||| 2 ||| 1) <<< 8)) % UINT64_SIZE &&& 0x07C89F00).testBit b = true
    rw [testBit_reserved_mask _ b hb, Nat.testBit_or, Bool.or_eq_true]
    right
    rcases hb with rfl | rfl | rfl <;> decide
  · intro old v b hb hv
    show (v % UINT64_SIZE &&& 0x07C89F00).testBit b = true
    rw [testBit_reserved_mask _ b hb]
    exact hv

theorem sigfpe_of_working_traps (prog : Program) (env : Platform)
    (h : working_traps prog env) : env.sigfpe = true := by
  apply h.2
  rw [armed_eq]
  cases prog
  · exact h.1 env.fpcr_reset 10 (Or.inr (Or.inr rfl))
  · have hw : ∀ old v b, b = 8 ∨ b = 9 ∨ b = 10 → v.testBit b = true →
        (env.msr old v).testBit b = true := h.1
    apply hw _ _ 10 (Or.inr (Or.inr rfl))
    simp [testBit_fpcr_new]

set_option maxRecDepth 100000 in
set_option exponentiation.threshold 2048 in
theorem DBL_MAX_eq : DBL_MAX = 2 ^ 1024 - 2 ^ 971 ∧ DBL_MAX + 2 ^ 971 = 2 ^ 1024 := by decide

set_option exponentiation.threshold 2048 in
theorem DBL_MAX_cast : (DBL_MAX : ℚ) = (2 ^ 53 - 1) * (2 * 2 ^ 970) := by
  have h2 : (DBL_MAX : ℚ) + 2 ^ 971 = 2 ^ 1024 := by
    have h := congrArg (Nat.cast : ℕ → ℚ) DBL_MAX_eq.2
    simpa only [Nat.cast_add, Nat.cast_pow, Nat.cast_ofNat] using h
  have h3 : (2 : ℚ) ^ 1024 = 2 ^ 53 * (2 * 2 ^ 970) := by
    rw [← pow_succ', ← pow_add]
  have h4 : (2 : ℚ) ^ 971 = 2 * 2 ^ 970 := by rw [← pow_succ']
  rw [h3, h4] at h2
  linarith

set_option exponentiation.threshold 2048 in
theorem double_abs_le (x : ℚ) (hx : is_double x) : |x| ≤ (DBL_MAX : ℚ) := by
  obtain ⟨neg, m, e, hm, _, he, rfl⟩ := hx
  have hpow : (2 : ℚ) ^ e ≤ 2 ^ (971 : ℤ) := zpow_le_zpow_right₀ (by norm_num) he
  rw [zpow_ofNat, pow_succ' 2 970] at hpow
  have hm2 : (m : ℚ) ≤ 2 ^ 53 - 1 := by
    have : m + 1 ≤ 2 ^ 53 := hm
    have h : ((m + 1 : ℕ) : ℚ) ≤ ((2 ^ 53 : ℕ) : ℚ) := Nat.cast_le.2 this
    push_cast at h
    linarith
  have hprod : (m : ℚ) * 2 ^ e ≤ (2 ^ 53 - 1) * (2 * 2 ^ 970) :=
    mul_le_mul hm2 hpow (by positivity) (by norm_num)
  have hnn : (0 : ℚ) ≤ (m : ℚ) * 2 ^ e :=
    mul_nonneg (Nat.cast_nonneg m) (zpow_nonneg (by norm_num) e)
  rw [DBL_MAX_cast]
  cases neg
  · simpa [abs_of_nonneg hnn] using hprod
  · simpa [abs_of_nonneg hnn] using hprod

theorem is_double_DBL_MAX : is_double (DBL_MAX : ℚ) := by
  refine ⟨false, 2 ^ 53 - 1, 971, by decide, by decide, by decide, ?_⟩
  rw [DBL_MAX_cast, zpow_ofNat, pow_succ' 2 970]
  have : ((2 ^ 53 - 1 : ℕ) : ℚ) = 2 ^ 53 - 1 := by norm_num
  rw [this]
  simp

theorem is_double_big : is_double (big : ℚ) := by
  refine ⟨false, 5010420900022432, 971, by decide, by decide, by decide, ?_⟩
  rw [big_cast, zpow_ofNat, pow_succ' 2 970]
  simp

set_option exponentiation.threshold 2048 in
theorem big_nearest (x : ℚ) (hx : is_double x) :
    |(big : ℚ) - 10 ^ 308| ≤ |x - 10 ^ 308| := by
  obtain ⟨neg, m, e, hm, _, he, rfl⟩ := hx
  have hu : (0 : ℚ) < 2 ^ 970 := by positivity
  have h1 : (10 : ℚ) ^ 308 ≤ (big : ℚ) := by exact_mod_cast big_near.1
  have h2 : (big : ℚ) ≤ 10 ^ 308 + 2 ^ 970 := by exact_mod_cast big_near.2
  have h3 : (2 : ℚ) ^ 1023 + 2 ^ 970 ≤ 10 ^ 308 := by exact_mod_cast far_below
  have hB := big_cast
  have hlhs : |(big : ℚ) - 10 ^ 308| ≤ 2 ^ 970 := by
    rw [abs_le]; constructor <;> linarith
  have hnn : (0 : ℚ) ≤ (m : ℚ) * 2 ^ e :=
    mul_nonneg (Nat.cast_nonneg m) (zpow_nonneg (by norm_num) e)
  cases neg
  · simp only [Bool.false_eq_true, if_false, one_mul]
    rcases lt_or_eq_of_le he with hlt | heq
    · refine hlhs.trans ?_
      have he970 : e ≤ 970 := by omega
      have hpow : (2 : ℚ) ^ e ≤ 2 ^ (970 : ℤ) := zpow_le_zpow_right₀ (by norm_num) he970
      rw [zpow_ofNat] at hpow
      have hm2 : (m : ℚ) ≤ 2 ^ 53 := by exact_mod_cast hm.le
      have hx : (m : ℚ) * 2 ^ e ≤ 2 ^ 53 * 2 ^ 970 :=
        mul_le_mul hm2 hpow (by positivity) (by positivity)
      have h53 : (2 : ℚ) ^ 53 * 2 ^ 970 = 2 ^ 1023 := by rw [← pow_add]
      rw [h53] at hx
      have : (2 : ℚ) ^ 970 ≤ 10 ^ 308 - (m : ℚ) * 2 ^ e := by linarith
      rw [abs_sub_comm]
      exact this.trans (le_abs_self _)
    · subst heq
      have hp : (2 : ℚ) ^ (971 : ℤ) = 2 * 2 ^ 970 := by
        rw [zpow_ofNat, pow_succ' 2 970]
      rw [hp]
      rcases Nat.lt_trichotomy m 5010420900022432 with hlt | heq | hgt
      · refine hlhs.trans ?_
        have hm1 : (m : ℚ) + 1 ≤ 5010420900022432 := by exact_mod_cast hlt
        have : (m : ℚ) * (2 * 2 ^ 970) ≤ (5010420900022432 - 1) * (2 * 2 ^ 970) :=
          mul_le_mul_of_nonneg_right (by linarith) (by positivity)
        have : (2 : ℚ) ^ 970 ≤ 10 ^ 308 - (m : ℚ) * (2 * 2 ^ 970) := by linarith
        rw [abs_sub_comm]
        exact this.trans (le_abs_self _)
      · subst heq
        rw [hB]
        push_cast
        exact le_refl _
      · refine hlhs.trans ?_
        have hm1 : (5010420900022432 : ℚ) + 1 ≤ m := by exact_mod_cast hgt
        have : (5010420900022432 + 1) * (2 * 2 ^ 970) ≤ (m : ℚ) * (2 * 2 ^ 970) :=
          mul_le_mul_of_nonneg_right (by linarith) (by positivity)
        have : (2 : ℚ) ^ 970 ≤ (m : ℚ) * (2 * 2 ^ 970) - 10 ^ 308 := by linarith
        exact this.trans (le_abs_self _)
  · simp only [if_true]
    refine hlhs.trans ?_
    have : (2 : ℚ) ^ 970 ≤ 10 ^ 308 - (-1 * ((m : ℚ) * 2 ^ e)) := by linarith
    rw [abs_sub_comm]
    exact this.trans (le_abs_self _)

/-! ## The claims -/

/-- Claim C1: in every run of either program, when the multiplication completes without
`SIGFPE` a text beginning with "FAIL: No SIGFPE caught" is printed and the exit status
is 1; when `SIGFPE` is delivered the `SUCCESS` message is printed and the exit status
is 0. The exit status is 0 exactly when the fault was caught, it is 0 or 1, and exactly
one verdict message is printed: `SUCCESS` exactly when the signal was delivered, `FAIL`
exactly when it was not. Every `printf` output ends with a newline, so each message
starts a line. -/
theorem exit_status_tells_whether_the_fault_was_caught (prog : Program) (env : Platform) :
    (env.sigfpe = false →
      (∃ l ∈ (main prog env).stdout, starts_with "FAIL: No SIGFPE caught" l = true) ∧
      (main prog env).exit_status = some 1) ∧
    (env.sigfpe = true →
      "SUCCESS: Caught SIGFPE for overflow\n" ∈ (main prog env).stdout ∧
      (main prog env).exit_status = some 0) ∧
    ((main prog env).exit_status = some 0 ↔ env.sigfpe = true) ∧
    ((main prog env).exit_status = some 0 ↔ (main prog env).phase = Phase.FaultCaught) ∧
    ((main prog env).exit_status = some 0 ∨ (main prog env).exit_status = some 1) ∧
    ("SUCCESS: Caught SIGFPE for overflow\n" ∈ (main prog env).stdout ↔ env.sigfpe = true) ∧
    ((∃ l ∈ (main prog env).stdout, starts_with "FAIL: No SIGFPE caught" l = true) ↔
      env.sigfpe = false) ∧
    (main prog env).stdout.countP is_verdict = 1 ∧
    (∀ l ∈ (main prog env).stdout, ends_line l = true) := by
  have hS : ∀ l ∈ enable_lines prog env ++ [testing_text prog],
      starts_with FAIL_HEAD l = false ∧ l ≠ SUCCESS_TEXT := by
    intro l hl
    apply not_verdict_iff
    rcases List.mem_append.1 hl with h | h
    · exact is_verdict_enable_lines prog env l h
    · rw [List.mem_singleton.1 h]; exact is_verdict_testing_text prog
  have hout : (main prog env).stdout = (enable_lines prog env ++ [testing_text prog]) ++
      [if env.sigfpe then SUCCESS_TEXT else fail_text env] := by
    simp [main_stdout]
  have hsucc : ("SUCCESS: Caught SIGFPE for overflow\n" ∈ (main prog env).stdout ↔
      env.sigfpe = true) := by
    rw [hout, List.mem_append]
    constructor
    · rintro (h | h)
      · exact absurd rfl (hS _ h).2
      · cases hs : env.sigfpe
        · rw [hs] at h
          exact absurd (List.mem_singleton.1 h).symm (fail_text_ne_success env)
        · rfl
    · intro hs
      right
      simp [hs, SUCCESS_TEXT]
  have hfail : ((∃ l ∈ (main prog env).stdout, starts_with "FAIL: No SIGFPE caught" l = true) ↔
      env.sigfpe = false) := by
    rw [hout]
    constructor
    · rintro ⟨l, hl, hp⟩
      rcases List.mem_append.1 hl with h | h
      · have := (hS l h).1
        simp [FAIL_HEAD] at this
        simp [this] at hp
      · cases hs : env.sigfpe
        · rfl
        · rw [hs] at h
          rw [List.mem_singleton.1 h] at hp
          simp [SUCCESS_TEXT, starts_with] at hp
    · intro hs
      refine ⟨fail_text env, ?_, starts_with_fail_text env⟩
      simp [hs]
  have hexit : (main prog env).exit_status = some (if env.sigfpe then 0 else 1) := by
    simp [main_eq, final_state]
  have hphase : (main prog env).phase =
      if env.sigfpe then Phase.FaultCaught else Phase.FaultNotCaught := by
    simp [main_eq, final_state]
  refine ⟨fun hs => ⟨hfail.2 hs, by simp [hexit, hs]⟩, fun hs => ⟨hsucc.2 hs, by simp [hexit, hs]⟩,
    ?_, ?_, ?_, hsucc, hfail, countP_verdict prog env, ends_line_stdout prog env⟩
  · cases hs : env.sigfpe <;> simp [hexit, hs]
  · cases hs : env.sigfpe <;> simp [hexit, hphase, hs]
  · cases hs : env.sigfpe <;> simp [hexit, hs]

/-- Claim C2: on a platform with working precise traps (the trap-enable request is
honoured and the overflowing multiplication raises `SIGFPE` when the overflow trap is
enabled) both programs exit with status 0 and print the `SUCCESS` line; the output of
the portable program is exactly the three lines "Enabling FP traps...",
"Testing overflow...", "SUCCESS: Caught SIGFPE for overflow", in that order. -/
theorem working_traps_give_success (prog : Program) (env : Platform)
    (h : working_traps prog env) :
    (main prog env).exit_status = some 0 ∧
    "SUCCESS: Caught SIGFPE for overflow\n" ∈ (main prog env).stdout ∧
    (prog = Program.portable →
      (main prog env).stdout =
        ["Enabling FP traps...\n", "Testing overflow...\n",
         "SUCCESS: Caught SIGFPE for overflow\n"] ∧
      String.join (main prog env).stdout =
        "Enabling FP traps...\nTesting overflow...\nSUCCESS: Caught SIGFPE for overflow\n") := by
  have hs := sigfpe_of_working_traps prog env h
  refine ⟨by simp [main_eq, final_state, hs], by simp [main_stdout, hs, SUCCESS_TEXT], ?_⟩
  rintro rfl
  have : (main Program.portable env).stdout =
        ["Enabling FP traps...\n", "Testing overflow...\n",
         "SUCCESS: Caught SIGFPE for overflow\n"] := by
    simp [main_stdout, hs, enable_lines, testing_text, SUCCESS_TEXT]
  rw [this]
  exact ⟨rfl, by decide⟩

/-- Instance of claim C2: both programs on a platform whose FPCR is a 64-bit register
with reserved bits, started with the rounding-mode bits set. -/
theorem working_traps_give_success_witness :
    working_traps Program.portable (register_platform 0xC00000) ∧
    working_traps Program.direct (register_platform 0xC00000) ∧
    (main Program.portable (register_platform 0xC00000)).exit_status = some 0 ∧
    (main Program.direct (register_platform 0xC00000)).exit_status = some 0 :=
  ⟨register_platform_working _ _, register_platform_working _ _,
    (working_traps_give_success Program.portable (register_platform 0xC00000)
      (register_platform_working _ _)).1,
    (working_traps_give_success Program.direct (register_platform 0xC00000)
      (register_platform_working _ _)).1⟩

/-- Claim C3: for every 64-bit value `b` read from the FPCR, the value written back has
bits 8, 9 and 10 set and agrees with `b` on every other of its 64 bits, that is, it
is `b ||| 0x700` (still a 64-bit value); this is the value the direct program hands to
`msr` and prints as "Setting FPCR to". -/
theorem fpcr_new_sets_exactly_the_trap_bits (b : Nat) (h : b < UINT64_SIZE) :
    fpcr_new b = b ||| 0x700 ∧
    fpcr_new b < UINT64_SIZE ∧
    (fpcr_new b).testBit 8 = true ∧
    (fpcr_new b).testBit 9 = true ∧
    (fpcr_new b).testBit 10 = true ∧
    (∀ i, i < 64 → i ≠ 8 → i ≠ 9 → i ≠ 10 → (fpcr_new b).testBit i = b.testBit i) ∧
    (∀ env : Platform, fpcr_before env = b →
      (main Program.direct env).fpcr = env.msr env.fpcr_reset (b ||| 0x700) ∧
      ("Setting FPCR to: 0x" ++ fmt_016llx (b ||| 0x700) ++ "\n") ∈
        (main Program.direct env).stdout) := by
  refine ⟨fpcr_new_eq_lor b, fpcr_new_lt b h, ?_, ?_, ?_, ?_, ?_⟩
  · simp [testBit_fpcr_new]
  · simp [testBit_fpcr_new]
  · simp [testBit_fpcr_new]
  · intro i _ h8 h9 h10
    simp [testBit_fpcr_new, h8, h9, h10]
  · intro env hb
    rw [main_eq]
    constructor
    · simp [final_state, enabled_fpcr, hb, fpcr_new_eq_lor]
    · simp [final_state, enable_lines, hb, fpcr_new_eq_lor]

/-- Instance of claim C3 at `b = 0xC00200`. -/
theorem fpcr_new_sets_exactly_the_trap_bits_witness :
    0xC00200 < UINT64_SIZE ∧ fpcr_new 0xC00200 = 0xC00200 ||| 0x700 ∧
      fpcr_new 0xC00200 < UINT64_SIZE :=
  ⟨by decide, (fpcr_new_sets_exactly_the_trap_bits 0xC00200 (by decide)).1,
    (fpcr_new_sets_exactly_the_trap_bits 0xC00200 (by decide)).2.1⟩

/-- Claim C4: for every value `a` re-read from the FPCR (every natural number, hence
every 64-bit value), the check prints "WARNING: FPCR trap bits did not stick!" exactly
when one of the bits 8, 9, 10 of `a` is clear and "Trap bits successfully set."
otherwise; exactly one of the two is printed; what the check does depends on no other
bit of `a`. The same holds of the whole output of the direct program. -/
theorem the_check_warns_iff_a_trap_bit_is_clear (a : Nat) (p : Proc) :
    (∃ lines, (check_trap_bits a p).stdout = p.stdout ++ lines ∧
      ("WARNING: FPCR trap bits did not stick!\n" ∈ lines ↔
        (a.testBit 8 = false ∨ a.testBit 9 = false ∨ a.testBit 10 = false)) ∧
      ("Trap bits successfully set.\n" ∈ lines ↔
        (a.testBit 8 = true ∧ a.testBit 9 = true ∧ a.testBit 10 = true)) ∧
      lines.count "WARNING: FPCR trap bits did not stick!\n" +
        lines.count "Trap bits successfully set.\n" = 1) ∧
    (∀ a2 : Nat, a2.testBit 8 = a.testBit 8 → a2.testBit 9 = a.testBit 9 →
      a2.testBit 10 = a.testBit 10 → check_trap_bits a2 p = check_trap_bits a p) ∧
    (∀ env : Platform, fpcr_after env = a →
      ("WARNING: FPCR trap bits did not stick!\n" ∈ (main Program.direct env).stdout ↔
        (a.testBit 8 = false ∨ a.testBit 9 = false ∨ a.testBit 10 = false)) ∧
      ("Trap bits successfully set.\n" ∈ (main Program.direct env).stdout ↔
        (a.testBit 8 = true ∧ a.testBit 9 = true ∧ a.testBit 10 = true)) ∧
      (main Program.direct env).stdout.count "WARNING: FPCR trap bits did not stick!\n" +
        (main Program.direct env).stdout.count "Trap bits successfully set.\n" = 1) := by
  refine ⟨⟨check_lines a, by simp [check_trap_bits_eq], ?_⟩, ?_, ?_⟩
  · rw [check_lines_cases]
    cases a.testBit 8 <;> cases a.testBit 9 <;> cases a.testBit 10 <;> decide
  · intro a2 h8 h9 h10
    rw [check_trap_bits_eq, check_trap_bits_eq, check_lines_cases a2, check_lines_cases a,
      h8, h9, h10]
  · intro env ha
    rw [mem_direct_stdout env _ (by decide) (by decide) (by decide),
      mem_direct_stdout env _ (by decide) (by decide) (by decide),
      count_direct_stdout env _ (by decide) (by decide) (by decide),
      count_direct_stdout env _ (by decide) (by decide) (by decide), ha, check_lines_cases]
    cases a.testBit 8 <;> cases a.testBit 9 <;> cases a.testBit 10 <;> decide

/-- Claim C5: when the bits 8, 9, 10 are not all set in the re-read value, the status
lines in the output of the direct program are exactly one line for OFE, one for DZE
and one for IOE, each saying "enabled" when its bit (10, 9, 8) is set in the re-read
value and "NOT enabled" otherwise; they are the same whether or not `SIGFPE` is
delivered afterwards. -/
theorem status_lines_report_each_trap_bit (env : Platform)
    (h : (fpcr_after env).testBit 8 = false ∨ (fpcr_after env).testBit 9 = false ∨
      (fpcr_after env).testBit 10 = false) :
    (main Program.direct env).stdout.filter is_status_line =
      [if (fpcr_after env).testBit 10 then "  OFE: enabled\n" else "  OFE: NOT enabled\n",
       if (fpcr_after env).testBit 9 then "  DZE: enabled\n" else "  DZE: NOT enabled\n",
       if (fpcr_after env).testBit 8 then "  IOE: enabled\n" else "  IOE: NOT enabled\n"] ∧
    (∀ (s : Bool) (r : String),
      (main Program.direct { env with sigfpe := s, result_g := r }).stdout.filter is_status_line =
        (main Program.direct env).stdout.filter is_status_line) := by
  constructor
  · rw [filter_status_direct_stdout, check_lines_cases]
    revert h
    cases (fpcr_after env).testBit 8 <;> cases (fpcr_after env).testBit 9 <;>
      cases (fpcr_after env).testBit 10 <;> decide
  · intro s r
    rw [filter_status_direct_stdout, filter_status_direct_stdout, fpcr_after_with]

/-- Instance of claim C5: the FPCR holds `0x500` and ignores writes. -/
theorem status_lines_report_each_trap_bit_witness :
    ((fpcr_after (masking_platform 0x500 false)).testBit 8 = false ∨
      (fpcr_after (masking_platform 0x500 false)).testBit 9 = false ∨
      (fpcr_after (masking_platform 0x500 false)).testBit 10 = false) ∧
    (main Program.direct (masking_platform 0x500 false)).stdout.filter is_status_line =
      ["  OFE: enabled\n", "  DZE: NOT enabled\n", "  IOE: enabled\n"] :=
  ⟨by decide,
    (status_lines_report_each_trap_bit (masking_platform 0x500 false) (by decide)).1.trans
      (by decide)⟩

/-- Claim C7: in every run of either program `got_sigfpe` is 0 where the checkpoint is
armed (whatever it was before), and at exit it is 1 exactly when the handler executed
(which happens exactly when `SIGFPE` is delivered), 0 otherwise; the handler sets the
flag and then leaves by `siglongjmp` with the non-zero value 1, never by returning, so
control resumes in the `else` branch of the checkpoint. -/
theorem got_sigfpe_records_the_handler (prog : Program) (env : Platform) :
    (∀ q ∈ trace prog env 3 (Proc.start env), q.phase = Phase.ArmedForFault →
      q.jump_buffer = true ∧ q.got_sigfpe = 0) ∧
    ((armed prog env).phase = Phase.ArmedForFault ∧ (armed prog env).jump_buffer = true ∧
      (armed prog env).got_sigfpe = 0) ∧
    (∀ p : Proc, (main_arm prog p).jump_buffer = true ∧ (main_arm prog p).got_sigfpe = 0) ∧
    ((main prog env).got_sigfpe = 1 ↔ 0 < (main prog env).handler_runs) ∧
    ((main prog env).got_sigfpe = 0 ↔ (main prog env).handler_runs = 0) ∧
    (0 < (main prog env).handler_runs ↔ env.sigfpe = true) ∧
    (∀ p : Proc, (sigfpe_handler p).1.got_sigfpe = 1 ∧
      (sigfpe_handler p).1.handler_runs = p.handler_runs + 1 ∧
      (sigfpe_handler p).2 = Control.longjmp 1 ∧
      (sigfpe_handler p).2 ≠ Control.returns ∧
      siglongjmp_value 1 ≠ 0 ∧
      (at_checkpoint (siglongjmp_value 1) (sigfpe_handler p).1).phase = Phase.FaultCaught) := by
  refine ⟨?_, ?_, ?_, ?_, ?_, ?_, ?_⟩
  · intro q hq hph
    rw [trace_eq prog env 0] at hq
    simp only [List.mem_cons, List.mem_singleton, List.not_mem_nil, or_false] at hq
    rcases hq with rfl | rfl | rfl | rfl
    · simp [Proc.start] at hph
    · simp [enabled_state] at hph
    · simp [armed_state]
    · cases hs : env.sigfpe <;> simp [final_state, hs] at hph
  · simp [armed_eq, armed_state]
  · intro p
    simp [main_arm, sigsetjmp, at_checkpoint, printf]
  · cases hs : env.sigfpe <;> simp [main_eq, final_state, hs]
  · cases hs : env.sigfpe <;> simp [main_eq, final_state, hs]
  · cases hs : env.sigfpe <;> simp [main_eq, final_state, hs]
  · intro p
    simp [sigfpe_handler, siglongjmp_value, at_checkpoint, return_from_main, printf]

/-- Claim C8: every run of either program visits `Init`, `TrapsEnabled`, `ArmedForFault`
in that order, once each, and then ends in `FaultCaught` with exit status 0 or in
`FaultNotCaught` with exit status 1; the run is complete after three steps whatever
the fuel (it terminates), the final state has no successor, no state in one of the
two outcomes has a successor, and the multiplication is executed once. -/
theorem run_is_one_shot (prog : Program) (env : Platform) :
    (∀ n, (trace prog env (n + 3) (Proc.start env)).map Proc.phase =
      [Phase.Init, Phase.TrapsEnabled, Phase.ArmedForFault,
       if env.sigfpe then Phase.FaultCaught else Phase.FaultNotCaught]) ∧
    (∀ n, (trace prog env (n + 3) (Proc.start env)).map Proc.exit_status =
      [none, none, none, some (if env.sigfpe then 0 else 1)]) ∧
    (∀ n, (trace prog env (n + 3) (Proc.start env)).map Proc.multiplications = [0, 0, 0, 1]) ∧
    (∀ n, exec prog env (n + 3) (Proc.start env) = main prog env) ∧
    step prog env (main prog env) = none ∧
    (∀ p q, Step prog env p q →
      p.phase ≠ Phase.FaultCaught ∧ p.phase ≠ Phase.FaultNotCaught) ∧
    (((main prog env).phase = Phase.FaultCaught ∧ (main prog env).exit_status = some 0) ∨
      ((main prog env).phase = Phase.FaultNotCaught ∧ (main prog env).exit_status = some 1)) := by
  refine ⟨?_, ?_, ?_, ?_, ?_, ?_, ?_⟩
  · intro n
    rw [trace_eq]
    simp [Proc.start, enabled_state, armed_state, final_state]
  · intro n
    rw [trace_eq]
    simp [Proc.start, enabled_state, armed_state, final_state]
  · intro n
    rw [trace_eq]
    simp [Proc.start, enabled_state, armed_state, final_state]
  · intro n
    rw [exec_eq, main_eq]
  · rw [main_eq, step_final]
  · intro p q h
    unfold Step step at h
    constructor <;> intro hp <;> simp [hp] at h
  · cases hs : env.sigfpe <;> simp [main_eq, final_state, hs]

/-- Claim C9: the operand `big` is a finite double and no finite double is nearer to
`10^308`; `DBL_MAX = 2^1024 - 2^971` is the largest finite double; in exact rational
arithmetic `big * big` is strictly greater than `DBL_MAX`, so the product is not a
finite double. -/
theorem the_product_overflows :
    is_double (big : ℚ) ∧
    (∀ x : ℚ, is_double x → |(big : ℚ) - 10 ^ 308| ≤ |x - 10 ^ 308|) ∧
    DBL_MAX = 2 ^ 1024 - 2 ^ 971 ∧
    is_double (DBL_MAX : ℚ) ∧
    (∀ x : ℚ, is_double x → x ≤ (DBL_MAX : ℚ)) ∧
    (DBL_MAX : ℚ) < (big : ℚ) * (big : ℚ) ∧
    ¬ is_double ((big : ℚ) * (big : ℚ)) := by
  have hlt : (DBL_MAX : ℚ) < (big : ℚ) * (big : ℚ) := by exact_mod_cast big_sq_overflows.1
  refine ⟨is_double_big, big_nearest, DBL_MAX_eq.1, is_double_DBL_MAX,
    fun x hx => (le_abs_self x).trans (double_abs_le x hx), hlt, ?_⟩
  intro h
  exact absurd ((le_abs_self _).trans (double_abs_le _ h)) (not_le.2 hlt)

/-- Claim C10: when the re-read value equals the value written, `fpcr_before ||| 0x700`,
the check passes: "Trap bits successfully set." is printed, the warning is not, and no
status line is printed, whatever the other bits of `fpcr_before` are: the condition of
line 68 is false at `fpcr_new b` for every `b`. -/
theorem honoured_write_passes_the_check (env : Platform)
    (h : fpcr_after env = fpcr_before env ||| 0x700) :
    "Trap bits successfully set.\n" ∈ (main Program.direct env).stdout ∧
    "WARNING: FPCR trap bits did not stick!\n" ∉ (main Program.direct env).stdout ∧
    (∀ l ∈ (main Program.direct env).stdout, is_status_line l = false) ∧
    bits_did_not_stick (fpcr_after env) = false ∧
    (∀ b : Nat, bits_did_not_stick (fpcr_new b) = false) := by
  have hb : (fpcr_after env).testBit 8 = true ∧ (fpcr_after env).testBit 9 = true ∧
      (fpcr_after env).testBit 10 = true := by
    rw [h, ← fpcr_new_eq_lor]
    simp [testBit_fpcr_new]
  have hc : check_lines (fpcr_after env) = ["Trap bits successfully set.\n"] := by
    rw [check_lines_cases, if_pos hb]
  refine ⟨?_, ?_, ?_, ?_, ?_⟩
  · rw [mem_direct_stdout env _ (by decide) (by decide) (by decide), hc]
    exact List.mem_singleton.2 rfl
  · rw [mem_direct_stdout env _ (by decide) (by decide) (by decide), hc]
    decide
  · have hfil : (main Program.direct env).stdout.filter is_status_line = [] := by
      rw [filter_status_direct_stdout, hc]
      decide
    intro l hl
    have := List.filter_eq_nil_iff.1 hfil l hl
    simpa using this
  · rw [bits_did_not_stick_eq, hb.1, hb.2.1, hb.2.2]
    rfl
  · intro b
    rw [bits_did_not_stick_eq]
    simp [testBit_fpcr_new]

/-- Instance of claim C10: the faithful platform with reset FPCR `0xC00200`. -/
theorem honoured_write_passes_the_check_witness :
    fpcr_after (faithful_platform 0xC00200) = fpcr_before (faithful_platform 0xC00200) ||| 0x700 ∧
    "Trap bits successfully set.\n" ∈ (main Program.direct (faithful_platform 0xC00200)).stdout :=
  ⟨by decide, (honoured_write_passes_the_check (faithful_platform 0xC00200) (by decide)).1⟩

end FpTraps
